import Mathlib

/-!
Shallow embedding of `src/controller/src/controller.py`, the reconciliation
state machine of the NodeRefresh Kubernetes operator.

Modelling conventions:
* Python dictionaries become structures; Kubernetes objects keep only the
  fields the controller reads.
* Every Kubernetes API call becomes an explicit environment value
  (`ApiResult`, `EvictApiResult`, `ReadNodeResult`, the functions in
  `DrainEnv` / `ProcEnv` / `FindEnv`), so the controller code itself stays a
  pure function of its environment.
* RFC-3339 timestamps become integers (seconds); `datetime.now` becomes an
  explicit `now : Int` parameter.
* The kopf exception control flow (`kopf.TemporaryError`,
  `kopf.PermanentError`, and the `except` clauses of `process_node_refresh`)
  becomes explicit result variants (`DrainOutcome`, `HandlerResult`).
* The unbounded `while` loop of `drain_node` is given an explicit fuel
  parameter; `none` means the loop has not exited within `fuel` iterations.
-/

/-- `OPERATOR_NAMESPACE` defaults to "default" (controller.py line 31).  The
drain-engine definitions below take the namespace as a parameter `opNs`, so
every theorem holds for every value of the environment variable. -/
def DEFAULT_OPERATOR_NAMESPACE : String := "default"

/-- controller.py line 37. -/
def RETRY_DELAY_SECONDS : Nat := 30

/-- controller.py line 36. -/
def DEFAULT_COOLDOWN_SECONDS : Int := 300

/-- Local constant `max_drain_attempts = 10` of `drain_node` (line 212). -/
def max_drain_attempts : Nat := 10

/-- Result of a Kubernetes list call: either the listed items, an
`ApiException` with an HTTP status, or any other exception. -/
inductive ApiResult (α : Type) where
  | ok (value : α)
  | apiException (status : Nat)
  | otherError
deriving DecidableEq

/-- One entry of `node.status.conditions`. -/
structure NodeCondition where
  type : String
  status : String
deriving DecidableEq

/-- The fields of a Kubernetes Node the controller reads: `metadata.name`,
`metadata.labels`, `spec.unschedulable` and `status.conditions` (an absent
`status`/`conditions` is flattened to the empty list, which is
indistinguishable for the predicates below, exactly as Python falsiness). -/
structure Node where
  name : String
  labels : List (String × String)
  unschedulable : Option Bool
  conditions : List NodeCondition
deriving DecidableEq

/-- `is_node_ready` (controller.py lines 95-102). -/
def is_node_ready (node : Node) : Bool :=
  node.conditions.any (fun c => c.type == "Ready" && c.status == "True")

/-- `is_node_schedulable` (controller.py lines 105-107):
`node.spec.unschedulable is None or node.spec.unschedulable is False`. -/
def is_node_schedulable (node : Node) : Bool :=
  node.unschedulable == none || node.unschedulable == some false

/-- `get_nodes_by_selector` (controller.py lines 82-92): returns the listed
items, and the empty list on `ApiException` or any other exception. -/
def get_nodes_by_selector (apiResult : ApiResult (List Node)) : List Node :=
  match apiResult with
  | .ok nodes => nodes
  | .apiException _ => []
  | .otherError => []

/-- One entry of `pod.metadata.owner_references`. -/
structure OwnerReference where
  kind : String
deriving DecidableEq

/-- The metadata fields of a Pod the controller reads. -/
structure PodMetadata where
  ns : String
  name : String
  labels : List (String × String)
  ownerReferences : List OwnerReference
deriving DecidableEq

/-- The fields of a Pod the controller reads (`phase` is
`pod.status.phase`). -/
structure Pod where
  metadata : PodMetadata
  phase : String
deriving DecidableEq

/-- Python `dict.get` on a label mapping. -/
def lookupLabel (labels : List (String × String)) (key : String) : Option String :=
  (labels.find? (fun kv => kv.1 == key)).map (fun kv => kv.2)

/-- `get_pods_on_node` (controller.py lines 142-161): filters out pods in the
terminal phases `Succeeded` and `Failed`, and returns the empty list on any
exception. -/
def get_pods_on_node (apiResult : ApiResult (List Pod)) : List Pod :=
  match apiResult with
  | .ok pods => pods.filter (fun p => p.phase != "Succeeded" && p.phase != "Failed")
  | .apiException _ => []
  | .otherError => []

/-- The operator self-exclusion test of `drain_node` (line 217):
`p.metadata.namespace == OPERATOR_NAMESPACE and
p.metadata.labels.get("app") == "node-refresh-operator"`. -/
def is_operator_pod (opNs : String) (p : Pod) : Bool :=
  p.metadata.ns == opNs && lookupLabel p.metadata.labels "app" == some "node-refresh-operator"

/-- The DaemonSet ownership test of `drain_node` (line 218):
`any(owner.kind == "DaemonSet" for owner in p.metadata.owner_references or [])`. -/
def is_daemonset_owned (p : Pod) : Bool :=
  p.metadata.ownerReferences.any (fun owner => owner.kind == "DaemonSet")

/-- The pod filter applied by `drain_node` both inside the eviction loop
(lines 215-219) and before the final emptiness check (lines 251-255). -/
def filter_pods_to_evict (opNs : String) (pods : List Pod) : List Pod :=
  pods.filter (fun p => !(is_operator_pod opNs p) && !(is_daemonset_owned p))

/-- Result of the `create_namespaced_pod_eviction` call in `evict_pod`. -/
inductive EvictApiResult where
  | created
  | apiException (status : Nat)
  | attributeError
  | otherError
deriving DecidableEq

/-- `evict_pod` (controller.py lines 164-201).  Returns `True` when the
eviction was created, `True` on a 404 `ApiException` (pod already gone),
and `False` on every other outcome — a 429 disruption-budget rejection, any
other `ApiException` status, an `AttributeError`, or any other exception.
It never raises. -/
def evict_pod (result : EvictApiResult) : Bool :=
  match result with
  | .created => true
  | .apiException status => if status == 404 then true else false
  | .attributeError => false
  | .otherError => false

/-- One entry of `status.conditions` of a NodeRefresh object
(`lastTransitionTime` is modelled as integer seconds). -/
structure Condition where
  type : String
  status : String
  lastTransitionTime : Int
  reason : String
  message : String
deriving DecidableEq

/-- The kopf `patch['status']` dictionary built by `update_status`: each
field is `none` while the corresponding key is absent. -/
structure StatusPatch where
  phase : Option String
  currentNode : Option String
  conditions : Option (List Condition)
  lastRefreshTimestamp : Option Int
deriving DecidableEq

/-- A fresh kopf patch: every handler invocation starts with an empty
`patch['status']`. -/
def emptyPatch : StatusPatch := ⟨none, none, none, none⟩

/-- Python `lst[-n:]`: the last `n` elements of a list. -/
def lastN (n : Nat) (l : List α) : List α :=
  l.drop (l.length - n)

/-- The in-place replacement loop of the `add_condition` branch of
`update_status` (lines 298-302): replace the first entry whose `type`
matches, leave the rest unchanged. -/
def replace_first_condition (conds : List Condition) (c : Condition) : List Condition :=
  match conds with
  | [] => []
  | x :: xs => if x.type == c.type then c :: xs else x :: replace_first_condition xs c

/-- `update_status` (controller.py lines 268-304).  `statusPhase` is
`status_obj.get('phase')`; `now` is `datetime.now(utc)`.  The `message`
branch appends an implicit condition after truncating the existing patch
conditions to the last 9 (`[-9:] + [new_condition]`); the `add_condition`
branch replaces the first condition of the same `type` in place, or appends
without truncating. -/
def update_status (patch : StatusPatch) (statusPhase : Option String)
    (phase : Option String) (current_node : Option String) (message : Option String)
    (now : Int) (timestamp : Option Int) (add_condition : Option Condition) : StatusPatch :=
  let patch := match phase with
    | some p => { patch with phase := some p }
    | none => patch
  let patch := match current_node with
    | some c => { patch with currentNode := some c }
    | none => patch
  let patch := match message with
    | some m =>
        let condType := phase.getD (statusPhase.getD "Unknown")
        let condReason := phase.getD "Processing"
        let newCond : Condition :=
          { type := condType, status := "True", lastTransitionTime := now,
            reason := condReason, message := m }
        { patch with conditions := some (lastN 9 (patch.conditions.getD []) ++ [newCond]) }
    | none => patch
  let patch := match timestamp with
    | some ts => { patch with lastRefreshTimestamp := some ts }
    | none => patch
  match add_condition with
  | some c =>
      let conds := patch.conditions.getD []
      if conds.any (fun x => x.type == c.type) then
        { patch with conditions := some (replace_first_condition conds c) }
      else
        { patch with conditions := some (conds ++ [c]) }
  | none => patch

/-- The per-drain environment: whether the cordon patch succeeds, and the
result of the `k`-th pod listing / the eviction outcomes of the `k`-th
eviction pass. -/
structure DrainEnv where
  cordonOk : Bool
  podsAt : Nat → ApiResult (List Pod)
  evictAt : Nat → Pod → EvictApiResult

/-- The accounting of one eviction pass (controller.py lines 228-235):
`(evicted_in_pass, failed_in_pass)` after attempting eviction of every pod
of the list in order. -/
def evict_pass_counts (outcome : Pod → EvictApiResult) (pods : List Pod) : Nat × Nat :=
  pods.foldl
    (fun acc p => if evict_pod (outcome p) then (acc.1 + 1, acc.2) else (acc.1, acc.2 + 1))
    (0, 0)

/-- The mutating Kubernetes API calls the controller issues against Node and
Pod objects, in order. -/
inductive Effect where
  | cordonCall (node : String)
  | evictCall (p : Pod)
  | uncordonCall (node : String)
deriving DecidableEq

/-- The eviction API calls issued by one pass: one per pod of the filtered
list (the `for pod in pods_to_evict` loop of lines 230-235 never breaks). -/
def evict_pass_effects (pods : List Pod) : List Effect :=
  pods.map (fun p => Effect.evictCall p)

/-- The per-pass status message of `drain_node` (line 226). -/
def drainingMsg (nodeName : String) (podCount : Nat) : String :=
  s!"Draining node {nodeName}. Pods remaining: {podCount}"

/-- The eviction loop of `drain_node` (controller.py lines 211-247), with an
explicit fuel bound on the number of simulated iterations.  Arguments after
the environment: `fuel`, `attempt`, `k` (index of the next pod listing),
the kopf patch and the accumulated effects.  Returns `some (k, patch,
effects)` when the loop exits — by the `break` on an empty filtered pod
list, or because `attempt` reached `max_drain_attempts` — and `none` when
the loop is still running after `fuel` iterations.  Faithful to the source,
`attempt` is incremented only in the two branches with `failed_in_pass > 0`
(lines 237-244); the all-evictions-succeeded branch (lines 245-247) leaves
it unchanged. -/
def drain_loop (opNs : String) (env : DrainEnv) (nodeName : String)
    (statusPhase : Option String) (now : Int) :
    Nat → Nat → Nat → StatusPatch → List Effect → Option (Nat × StatusPatch × List Effect)
  | 0, _, _, _, _ => none
  | fuel + 1, attempt, k, patch, effs =>
    if attempt < max_drain_attempts then
      let pods := filter_pods_to_evict opNs (get_pods_on_node (env.podsAt k))
      if pods.isEmpty then
        some (k + 1, patch, effs)
      else
        let patch := update_status patch statusPhase none none
          (some (drainingMsg nodeName pods.length)) now none none
        let counts := evict_pass_counts (env.evictAt k) pods
        let effs := effs ++ evict_pass_effects pods
        let attempt := if counts.2 > 0 then attempt + 1 else attempt
        drain_loop opNs env nodeName statusPhase now fuel attempt (k + 1) patch effs
    else
      some (k, patch, effs)

/-- Outcome of `drain_node`: `tempErr` models the `kopf.TemporaryError`
raised when cordoning fails (line 207), `permErr` models the
`kopf.PermanentError` raised when filtered pods remain after the loop
(line 261), `success` the `return True` of line 265. -/
inductive DrainOutcome where
  | tempErr (message : String) (delay : Nat)
  | permErr (remaining : List Pod)
  | success
deriving DecidableEq

/-- Message of the `TemporaryError` of line 207. -/
def cordonFailMsg (nodeName : String) : String :=
  s!"Failed to cordon node {nodeName}. Retrying."

/-- Message of lines 258-261 (the remaining pods printed as
`namespace/name`). -/
def drainFailMsg (nodeName : String) (remaining : List Pod) : String :=
  let podNames := remaining.map (fun p => p.metadata.ns ++ "/" ++ p.metadata.name)
  s!"Failed to drain node {nodeName}. Pods remaining: {podNames}"

/-- `drain_node` (controller.py lines 204-265).  The first effect is always
the cordon patch attempt; on cordon failure the `TemporaryError` propagates
with the patch untouched.  Otherwise status is set to
`ProcessingNode`/`currentNode := nodeName`, the eviction loop runs, and the
filtered pod list is re-checked once: if non-empty, the patch is set to
`Failed` (note: `current_node` is NOT passed, so the patch leaves
`currentNode` alone) and a `PermanentError` is raised; else success. -/
def drain_node (opNs : String) (env : DrainEnv) (fuel : Nat) (nodeName : String)
    (patch : StatusPatch) (statusPhase : Option String) (now : Int) :
    Option (DrainOutcome × StatusPatch × List Effect) :=
  let effs := [Effect.cordonCall nodeName]
  if env.cordonOk = false then
    some (.tempErr (cordonFailMsg nodeName) RETRY_DELAY_SECONDS, patch, effs)
  else
    let patch := update_status patch statusPhase (some "ProcessingNode") (some nodeName)
      (some "Node cordoned, starting drain.") now none none
    match drain_loop opNs env nodeName statusPhase now fuel 0 0 patch effs with
    | none => none
    | some (k, patch, effs) =>
      let final_pods := filter_pods_to_evict opNs (get_pods_on_node (env.podsAt k))
      if final_pods.isEmpty = false then
        let patch := update_status patch statusPhase (some "Failed") none
          (some (drainFailMsg nodeName final_pods)) now none none
        some (.permErr final_pods, patch, effs)
      else
        let patch := update_status patch statusPhase none none
          (some s!"Successfully drained node {nodeName}.") now none none
        some (.success, patch, effs)

/-- How one invocation of `process_node_refresh` ends: normally (the handler
returns, kopf persists the patch), or with a `kopf.TemporaryError` carrying
a retry delay (kopf persists the patch and retries).  A
`kopf.PermanentError` is caught by the handler itself (line 476-478) and
converted into a normal return with `phase = Failed`, so it surfaces as
`finished`. -/
inductive HandlerResult where
  | finished
  | tempErr (delay : Nat)
deriving DecidableEq

/-- The `except kopf.TemporaryError` clause of `process_node_refresh`
(lines 472-475): record a `Temporary issue:` message, then re-raise. -/
def tempErrorResult (patch : StatusPatch) (statusPhase : Option String) (now : Int)
    (msg : String) (delay : Nat) : HandlerResult × StatusPatch :=
  (HandlerResult.tempErr delay,
   update_status patch statusPhase none none (some ("Temporary issue: " ++ msg)) now none none)

/-- The `except kopf.PermanentError` clause of `process_node_refresh`
(lines 476-478): set `phase = Failed` with a `Permanent error:` message
(`current_node` is NOT passed) and finish. -/
def permErrorResult (patch : StatusPatch) (statusPhase : Option String) (now : Int)
    (msg : String) : HandlerResult × StatusPatch :=
  (HandlerResult.finished,
   update_status patch statusPhase (some "Failed") none
     (some ("Permanent error: " ++ msg)) now none none)

/-- The stored `status` of a NodeRefresh object as the handlers read it:
`phase` is `status.get('phase')`, `currentNode` is
`status.get('currentNode')` with `""` standing for both the empty string
and an absent key (the code only tests it for falsiness). -/
structure CRStatus where
  phase : Option String
  currentNode : String
  conditions : List Condition
deriving DecidableEq

/-- Environment of the `FindingNodes` branch: the node list result and the
oracle value consumed by `random.choice`. -/
structure FindEnv where
  listResult : ApiResult (List Node)
  choice : Nat

/-- `random.choice(seq)` (line 408), with the random draw modelled as an
arbitrary natural `r` reduced modulo the length; every index of the list is
the image of some `r`, so the support of the selection is the whole list.
(The uniformity of the distribution itself is the documented behaviour of
Python's `random.choice`.) -/
def random_choice (l : List Node) (r : Nat) (h : l ≠ []) : Node :=
  l.get ⟨r % l.length, Nat.mod_lt r (List.length_pos.mpr h)⟩

/-- The `FindingNodes` branch of `process_node_refresh` (controller.py
lines 394-411), together with the surrounding `try/except` translation of
the `TemporaryError` raised on line 406. -/
def process_node_refresh_finding (targetLabels : List (String × String)) (st : CRStatus)
    (env : FindEnv) (now : Int) : HandlerResult × StatusPatch :=
  let stP := st.phase
  let nodes := get_nodes_by_selector env.listResult
  if _h1 : nodes = [] then
    (HandlerResult.finished,
     update_status emptyPatch stP (some "Idle") none (some "No target nodes found.") now none none)
  else
    let schedulable_nodes := nodes.filter (fun n => is_node_schedulable n && is_node_ready n)
    if h2 : schedulable_nodes = [] then
      let patch := update_status emptyPatch stP none none
        (some "Waiting for a schedulable/ready target node.") now none none
      tempErrorResult patch stP now "No suitable node to refresh yet." (RETRY_DELAY_SECONDS * 2)
    else
      let node_name := (random_choice schedulable_nodes env.choice h2).name
      (HandlerResult.finished,
       update_status emptyPatch stP (some "ProcessingNode") (some node_name)
         (some s!"Selected node {node_name} for refresh.") now none none)

/-- Result of the `core_v1_api.read_node` call of line 422. -/
inductive ReadNodeResult where
  | found (nd : Node)
  | apiException (status : Nat)
deriving DecidableEq

/-- The label-match verification of line 423:
`all(item in node.metadata.labels.items() for item in target_labels.items())`. -/
def matchesLabels (targetLabels : List (String × String)) (nodeLabels : List (String × String)) : Bool :=
  targetLabels.all (fun kv => nodeLabels.contains kv)

/-- The explicit `Warning` condition recorded on uncordon failure
(lines 455-458). -/
def uncordonWarning (nodeName : String) (now : Int) : Condition :=
  { type := "Warning", status := "True", lastTransitionTime := now,
    reason := "UncordonFailed", message := s!"Failed to uncordon node {nodeName} after drain." }

/-- Environment of the `ProcessingNode` branch: the `read_node` result, the
replacement-availability listing (line 435), the drain environment, whether
the uncordon patch succeeds (line 453), and the final listing (line 462). -/
structure ProcEnv where
  readNode : ReadNodeResult
  replacementList : ApiResult (List Node)
  drain : DrainEnv
  uncordonOk : Bool
  finalList : ApiResult (List Node)

/-- The `ProcessingNode` branch of `process_node_refresh` (controller.py
lines 413-481), with the `try/except` clauses translated by
`tempErrorResult`/`permErrorResult`.  Returns `none` when the drain loop did
not exit within `fuel` iterations. -/
def process_node_refresh_processing (opNs : String) (targetLabels : List (String × String))
    (st : CRStatus) (env : ProcEnv) (fuel : Nat) (now : Int) :
    Option (HandlerResult × StatusPatch × List Effect) :=
  let stP := st.phase
  let node_name := st.currentNode
  if node_name = "" then
    let patch := update_status emptyPatch stP (some "FindingNodes") none
      (some "Error: Missing currentNode.") now none none
    let r := tempErrorResult patch stP now "Missing current node." 5
    some (r.1, r.2, [])
  else
    match env.readNode with
    | .apiException code =>
      if code = 404 then
        some (HandlerResult.finished,
          update_status emptyPatch stP (some "FindingNodes") (some "")
            (some s!"Node {node_name} not found.") now none none, [])
      else
        let r := tempErrorResult emptyPatch stP now
          s!"API error checking node {node_name}" RETRY_DELAY_SECONDS
        some (r.1, r.2, [])
    | .found nd =>
      if matchesLabels targetLabels nd.labels = false then
        some (HandlerResult.finished,
          update_status emptyPatch stP (some "FindingNodes") (some "")
            (some s!"Node {node_name} labels changed.") now none none, [])
      else
        let nodes := get_nodes_by_selector env.replacementList
        let replacement_candidates := nodes.filter
          (fun n => n.name != node_name && is_node_ready n && is_node_schedulable n)
        if replacement_candidates.isEmpty then
          let patch := update_status emptyPatch stP none none
            (some s!"Waiting for replacement for {node_name}.") now none none
          let r := tempErrorResult patch stP now "Waiting for replacement node."
            (RETRY_DELAY_SECONDS * 3)
          some (r.1, r.2, [])
        else
          match drain_node opNs env.drain fuel node_name emptyPatch stP now with
          | none => none
          | some (.tempErr msg delay, p1, effs) =>
            let r := tempErrorResult p1 stP now msg delay
            some (r.1, r.2, effs)
          | some (.permErr remaining, p1, effs) =>
            let r := permErrorResult p1 stP now (drainFailMsg node_name remaining)
            some (r.1, r.2, effs)
          | some (.success, p1, effs) =>
            let effs := effs ++ [Effect.uncordonCall node_name]
            let p2 := if env.uncordonOk then p1
              else update_status p1 stP none none none now none
                (some (uncordonWarning node_name now))
            let remaining_schedulable := (get_nodes_by_selector env.finalList).filter
              (fun n => is_node_schedulable n && is_node_ready n && n.name != node_name)
            if remaining_schedulable.length ≥ 1 then
              some (HandlerResult.finished,
                update_status p2 stP (some "WaitingCooldown") (some "")
                  (some s!"Node {node_name} refreshed. Cooldown.") now (some now) none, effs)
            else
              some (HandlerResult.finished,
                update_status p2 stP (some "Succeeded") (some "")
                  (some s!"Refresh cycle completed after {node_name}.") now (some now) none, effs)

/-- The scan of lines 338-342: the `lastTransitionTime` of the last
condition with `type == 'WaitingCooldown'` and `status == 'True'` (the scan
walks `reversed(conditions)` and stops at the first hit). -/
def find_cooldown_start (conds : List Condition) : Option Int :=
  (conds.reverse.find? (fun c => c.type == "WaitingCooldown" && c.status == "True")).map
    (fun c => c.lastTransitionTime)

/-- Outcome of the `WaitingCooldown` branch of the timer: yield (stay in
`WaitingCooldown`), or reset the phase to `Idle` with the given message. -/
inductive CooldownTickResult where
  | yield
  | toIdle (message : String)
deriving DecidableEq

/-- The `WaitingCooldown` branch of `check_node_refreshes` (controller.py
lines 336-354): with a cooldown-start condition present, yield while
`now < start + cooldownSeconds`, else transition to `Idle`; with no such
condition, transition to `Idle` defensively. -/
def check_cooldown (conds : List Condition) (cooldownSeconds : Int) (now : Int) :
    CooldownTickResult :=
  match find_cooldown_start conds with
  | some start =>
    if now < start + cooldownSeconds then CooldownTickResult.yield
    else CooldownTickResult.toIdle "Cooldown finished."
  | none => CooldownTickResult.toIdle "Resetting from cooldown due to missing timestamp."

/-- The `(phase, currentNode)` projection of a stored NodeRefresh status. -/
structure SStatus where
  phase : String
  currentNode : String
deriving DecidableEq

/-- One observable status transition of a NodeRefresh object: the merged
effect on `(phase, currentNode)` of the patch produced by one timer tick or
one reconcile, one constructor per call site of `update_status` that the
handlers can end with.  A field the patch does not set keeps its stored
value (kopf merge-patch semantics).  Line numbers refer to controller.py.
The hypothesis `hn : n ≠ ""` of `findSelect` and nothing else encodes that
Kubernetes node names are non-empty strings. -/
inductive Step : SStatus → SStatus → Prop where
  /-- Timer, line 375: refresh due from a terminal/idle phase (after the
  optional cooldown reset of lines 351/354) — `phase := FindingNodes`,
  `currentNode := ""`. -/
  | timerTrigger (s : SStatus)
      (h : s.phase = "Idle" ∨ s.phase = "Succeeded" ∨ s.phase = "Failed" ∨
           s.phase = "WaitingCooldown") :
      Step s ⟨"FindingNodes", ""⟩
  /-- Timer, lines 351/354: cooldown over (or start time missing) and no
  refresh due — `phase := Idle`, `currentNode` untouched. -/
  | timerCooldownIdle (s : SStatus) (h : s.phase = "WaitingCooldown") :
      Step s ⟨"Idle", s.currentNode⟩
  /-- Reconciler, line 399: no nodes match — `phase := Idle`, `currentNode`
  untouched. -/
  | findNoNodes (s : SStatus) (h : s.phase = "FindingNodes") :
      Step s ⟨"Idle", s.currentNode⟩
  /-- Reconciler, lines 405-406: nodes match but none selectable —
  `TemporaryError`, message-only patch. -/
  | findNoneSelectable (s : SStatus) (h : s.phase = "FindingNodes") : Step s s
  /-- Reconciler, line 411: a node selected — `phase := ProcessingNode`,
  `currentNode := n`. -/
  | findSelect (s : SStatus) (n : String) (h : s.phase = "FindingNodes") (hn : n ≠ "") :
      Step s ⟨"ProcessingNode", n⟩
  /-- Reconciler, lines 416-418: `ProcessingNode` with empty `currentNode` —
  `phase := FindingNodes`, `currentNode` untouched. -/
  | procMissingCurrent (s : SStatus) (h : s.phase = "ProcessingNode")
      (h2 : s.currentNode = "") : Step s ⟨"FindingNodes", s.currentNode⟩
  /-- Reconciler, lines 425/430: node gone or labels changed —
  `phase := FindingNodes`, `currentNode := ""`. -/
  | procNodeGoneOrLabels (s : SStatus) (h : s.phase = "ProcessingNode") :
      Step s ⟨"FindingNodes", ""⟩
  /-- Reconciler, lines 433/443 and the cordon failure of line 207:
  `TemporaryError`, message-only patch. -/
  | procTransient (s : SStatus) (h : s.phase = "ProcessingNode") : Step s s
  /-- Reconciler, lines 260/478/481: drain failure or unexpected exception —
  `phase := Failed`, `currentNode` untouched (no call site passes
  `current_node` here). -/
  | procDrainFail (s : SStatus) (h : s.phase = "ProcessingNode") :
      Step s ⟨"Failed", s.currentNode⟩
  /-- Reconciler, line 467: drain and cycle done, another target remains —
  `phase := WaitingCooldown`, `currentNode := ""`. -/
  | procCooldown (s : SStatus) (h : s.phase = "ProcessingNode") :
      Step s ⟨"WaitingCooldown", ""⟩
  /-- Reconciler, line 470: drain done, no other target —
  `phase := Succeeded`, `currentNode := ""`. -/
  | procSucceeded (s : SStatus) (h : s.phase = "ProcessingNode") :
      Step s ⟨"Succeeded", ""⟩
  /-- Reconciler, line 481: unexpected exception in either active phase —
  `phase := Failed`, `currentNode` untouched. -/
  | reconcileException (s : SStatus)
      (h : s.phase = "FindingNodes" ∨ s.phase = "ProcessingNode") :
      Step s ⟨"Failed", s.currentNode⟩

/-- The statuses reachable from a fresh NodeRefresh object (no status yet:
the handlers read `phase` as `Idle` and `currentNode` as empty). -/
inductive Reachable : SStatus → Prop where
  | init : Reachable ⟨"Idle", ""⟩
  | step (s t : SStatus) : Reachable s → Step s t → Reachable t

/-! Helper lemmas shared by several claims. -/

theorem lastN_length_le (n : Nat) (l : List α) : (lastN n l).length ≤ n := by
  simp only [lastN, List.length_drop]
  omega

theorem mem_of_mem_lastN {n : Nat} {l : List α} {a : α} (h : a ∈ lastN n l) : a ∈ l :=
  List.drop_subset _ _ h

theorem replace_first_condition_length (conds : List Condition) (c : Condition) :
    (replace_first_condition conds c).length = conds.length := by
  induction conds with
  | nil => rfl
  | cons x xs ih =>
    simp only [replace_first_condition]
    by_cases h : (x.type == c.type) = true
    · simp [h]
    · simp [h, ih]

theorem mem_drop_append_singleton (l : List α) (b : α) (k : Nat) (h : k ≤ l.length) :
    b ∈ (l ++ [b]).drop k := by
  induction l generalizing k with
  | nil =>
    have hk : k = 0 := by simpa using h
    subst hk
    simp
  | cons x xs ih =>
    cases k with
    | zero => simp
    | succ k2 =>
      simp only [List.cons_append, List.drop_succ_cons]
      exact ih k2 (by simp only [List.length_cons] at h; omega)

theorem mem_lastN_append_singleton (l : List α) (b : α) : b ∈ lastN 9 (l ++ [b]) := by
  unfold lastN
  have h9 : (l ++ [b]).length - 9 ≤ l.length := by
    simp only [List.length_append, List.length_singleton]
    omega
  exact mem_drop_append_singleton l b _ h9

theorem mem_filter_pods_to_evict {opNs : String} {pods : List Pod} {p : Pod}
    (h : p ∈ filter_pods_to_evict opNs pods) :
    is_daemonset_owned p = false ∧ is_operator_pod opNs p = false := by
  have h2 := (List.mem_filter.mp h).2
  simp only [Bool.and_eq_true, Bool.not_eq_true'] at h2
  exact ⟨h2.2, h2.1⟩

theorem evict_pass_counts_sum (outcome : Pod → EvictApiResult) (pods : List Pod) :
    (evict_pass_counts outcome pods).1 + (evict_pass_counts outcome pods).2 = pods.length := by
  have key : ∀ (l : List Pod) (a b : Nat),
      (l.foldl (fun acc p => if evict_pod (outcome p) then (acc.1 + 1, acc.2)
          else (acc.1, acc.2 + 1)) (a, b)).1 +
        (l.foldl (fun acc p => if evict_pod (outcome p) then (acc.1 + 1, acc.2)
          else (acc.1, acc.2 + 1)) (a, b)).2 = a + b + l.length := by
    intro l
    induction l with
    | nil => intro a b; simp
    | cons p ps ih =>
      intro a b
      simp only [List.foldl_cons, List.length_cons]
      cases hev : evict_pod (outcome p) with
      | true =>
        simp only [hev, if_true]
        have := ih (a + 1) b
        omega
      | false =>
        simp only [hev, Bool.false_eq_true, if_false]
        have := ih a (b + 1)
        omega
  simpa using key pods 0 0

/-! Claim C10. -/

/-- C10: a failure of the node-list API call is indistinguishable from an
empty result — `get_nodes_by_selector` returns the empty list on any
exception, so a `FindingNodes` reconcile whose listing fails transitions
the object to `Idle` with the message "No target nodes found." instead of
staying in phase for a retry. -/
theorem C10_list_failure_indistinguishable_from_empty (status : Nat)
    (targetLabels : List (String × String)) (st : CRStatus) (choice : Nat) (now : Int) :
    get_nodes_by_selector (ApiResult.apiException status) = [] ∧
    get_nodes_by_selector ApiResult.otherError = [] ∧
    process_node_refresh_finding targetLabels st ⟨ApiResult.apiException status, choice⟩ now =
      (HandlerResult.finished,
       update_status emptyPatch st.phase (some "Idle") none (some "No target nodes found.")
         now none none) := by
  refine ⟨rfl, rfl, ?_⟩
  rfl

/-! Claim C7. -/

/-- C7: for every scheduler-tick step taken from `WaitingCooldown` whose
status has a most-recent `WaitingCooldown`/`True` condition, the transition
to `Idle` happens exactly when at least `nodeCooldownSeconds` have elapsed
since that condition's `lastTransitionTime`; while `now` is strictly
earlier the tick yields and the object stays in `WaitingCooldown`. -/
theorem C7_cooldown_elapse_gate (conds : List Condition) (cooldownSeconds now start : Int)
    (h : find_cooldown_start conds = some start) :
    (now < start + cooldownSeconds →
      check_cooldown conds cooldownSeconds now = CooldownTickResult.yield) ∧
    (start + cooldownSeconds ≤ now →
      check_cooldown conds cooldownSeconds now = CooldownTickResult.toIdle "Cooldown finished.") := by
  constructor
  · intro hlt
    simp only [check_cooldown, h]
    rw [if_pos hlt]
  · intro hle
    simp only [check_cooldown, h]
    rw [if_neg (not_lt.mpr hle)]

/-- Concrete condition entry used by the C7 witness. -/
def c7Cond : Condition :=
  { type := "WaitingCooldown", status := "True", lastTransitionTime := 100,
    reason := "WaitingCooldown", message := "Node worker-1 refreshed. Cooldown." }

theorem C7_cooldown_elapse_gate_witness :
    find_cooldown_start [c7Cond] = some 100 ∧
    ((350 : Int) < 100 + 300 → check_cooldown [c7Cond] 300 350 = CooldownTickResult.yield) ∧
    ((100 : Int) + 300 ≤ 350 →
      check_cooldown [c7Cond] 300 350 = CooldownTickResult.toIdle "Cooldown finished.") :=
  ⟨by decide, (C7_cooldown_elapse_gate [c7Cond] 300 350 100 (by decide)).1,
   (C7_cooldown_elapse_gate [c7Cond] 300 350 100 (by decide)).2⟩

/-! Claim C6. -/

/-- Ten implicit-condition updates in a row, as a drain pass produces. -/
def c6Base : StatusPatch :=
  (List.range 10).foldl
    (fun p _ => update_status p (some "ProcessingNode") none none (some "drain progress") 0 none none)
    emptyPatch

/-- C6 is falsified: ten implicit-condition `update_status` calls fill the
patch to exactly 10 conditions, and one further `add_condition` call with a
fresh type (the `Warning` the reconciler adds on uncordon failure) appends
an 11th entry — the `add_condition` branch of `update_status` never
truncates. -/
theorem C6_counterexample :
    ((c6Base.conditions.getD []).length = 10) ∧
    (((update_status c6Base (some "ProcessingNode") none none none 0 none
        (some { type := "Warning", status := "True", lastTransitionTime := 0,
                reason := "UncordonFailed", message := "w" })).conditions.getD []).length = 11) := by
  exact ⟨by decide, by decide⟩

/-- C6 amended: every `update_status` call that passes a `message` leaves at
most 10 conditions in the patch — it keeps exactly the most recent 9
previous entries (oldest discarded first) plus the new implicit condition —
but an `add_condition` call replaces in place or appends without
truncating, so it can grow the list beyond 10 (by at most one entry per
call). -/
theorem C6_message_truncates_add_condition_does_not (patch : StatusPatch)
    (stP ph cn : Option String) (m : String) (now : Int) (ts : Option Int) (c : Condition) :
    ((update_status patch stP ph cn (some m) now ts none).conditions.getD []).length ≤ 10 ∧
    (update_status patch stP ph cn (some m) now ts none).conditions =
      some (lastN 9 (patch.conditions.getD []) ++
        [{ type := ph.getD (stP.getD "Unknown"), status := "True", lastTransitionTime := now,
           reason := ph.getD "Processing", message := m }]) ∧
    ((update_status patch stP none none none now none (some c)).conditions.getD []).length ≤
      (patch.conditions.getD []).length + 1 := by
  refine ⟨?_, ?_, ?_⟩
  · cases ph <;> cases cn <;> cases ts <;>
      · simp only [update_status, List.length_append, List.length_cons, List.length_nil,
          Option.getD_some]
        have := lastN_length_le 9 (patch.conditions.getD [])
        omega
  · cases ph <;> cases cn <;> cases ts <;> rfl
  · simp only [update_status]
    by_cases h : ((patch.conditions.getD []).any (fun x => x.type == c.type)) = true
    · rw [if_pos h]
      simp [replace_first_condition_length]
    · rw [if_neg h]
      simp

/-! Claim C4. -/

/-- A pod whose eviction meets a fatal API error (HTTP 500). -/
def c4PodA : Pod := ⟨⟨"apps", "db-0", [], []⟩, "Running"⟩

/-- A pod listed after the fatal one in the same pass. -/
def c4PodB : Pod := ⟨⟨"apps", "web-1", [], []⟩, "Running"⟩

/-- Eviction outcomes of the C4 scenario: `db-0` hits a 500, `web-1`
succeeds. -/
def c4Evict : Pod → EvictApiResult :=
  fun p => if p.metadata.name == "db-0" then .apiException 500 else .created

/-- Drain environment of the C4 scenario: the first listing returns both
pods, later listings are empty. -/
def c4DrainEnv : DrainEnv :=
  ⟨true, fun k => if k == 0 then .ok [c4PodA, c4PodB] else .ok [], fun _ => c4Evict⟩

/-- C4 is falsified: a fatal eviction outcome (HTTP 500, neither 429 nor
404) is returned by `evict_pod` as the same `False` as a 429
disruption-budget rejection; the pass still attempts the remaining pod
(`web-1` is evicted, counts `(1, 1)`), and the drain proceeds to a further
attempt and ends in success instead of propagating the error. -/
theorem C4_counterexample :
    evict_pod (EvictApiResult.apiException 500) = evict_pod (EvictApiResult.apiException 429) ∧
    evict_pass_counts c4Evict [c4PodA, c4PodB] = (1, 1) ∧
    (drain_node "default" c4DrainEnv 3 "worker-1" emptyPatch (some "ProcessingNode") 0).map
        (fun r => (r.1, r.2.2)) =
      some (DrainOutcome.success,
        [Effect.cordonCall "worker-1", Effect.evictCall c4PodA, Effect.evictCall c4PodB]) := by
  refine ⟨rfl, rfl, ?_⟩
  decide

/-- C4 amended: `evict_pod` maps every `ApiException` status other than 404
— fatal errors included — to `False`, exactly like the 429 `Blocked` case;
the eviction pass attempts every pod of the filtered list regardless of
outcomes (`evicted_in_pass + failed_in_pass` always equals the number of
pods, and one eviction call is issued per pod), so a fatal outcome is never
propagated from inside a pass; errors only surface at the final re-list
check. -/
theorem C4_fatal_not_propagated (status : Nat) (h : status ≠ 404) :
    evict_pod (EvictApiResult.apiException status) = false ∧
    evict_pod (EvictApiResult.apiException status) = evict_pod (EvictApiResult.apiException 429) ∧
    ∀ (outcome : Pod → EvictApiResult) (pods : List Pod),
      (evict_pass_counts outcome pods).1 + (evict_pass_counts outcome pods).2 = pods.length ∧
      evict_pass_effects pods = pods.map Effect.evictCall := by
  have hbeq : (status == 404) = false := by
    simpa using h
  refine ⟨?_, ?_, fun outcome pods => ⟨evict_pass_counts_sum outcome pods, rfl⟩⟩
  · simp [evict_pod, hbeq]
  · simp [evict_pod, hbeq]

theorem C4_fatal_not_propagated_witness :
    (500 : Nat) ≠ 404 ∧
    evict_pod (EvictApiResult.apiException 500) = false ∧
    ((evict_pass_counts c4Evict [c4PodA, c4PodB]).1 +
        (evict_pass_counts c4Evict [c4PodA, c4PodB]).2 = ([c4PodA, c4PodB] : List Pod).length ∧
      evict_pass_effects [c4PodA, c4PodB] = ([c4PodA, c4PodB] : List Pod).map Effect.evictCall) :=
  ⟨by decide, (C4_fatal_not_propagated 500 (by decide)).1,
   (C4_fatal_not_propagated 500 (by decide)).2.2 c4Evict [c4PodA, c4PodB]⟩

/-! Claim C3. -/

/-- A plain evictable pod for the C3 scenario. -/
def c3Pod : Pod := ⟨⟨"apps", "web-0", [], []⟩, "Running"⟩

/-- Drain environment where the pod keeps reappearing after every listing
and every eviction succeeds: the all-evicted branch of the loop (lines
245-247) never increments `attempt`. -/
def c3ReappearEnv : DrainEnv := ⟨true, fun _ => .ok [c3Pod], fun _ _ => .created⟩

/-- C3 is falsified: with a pod population that keeps reappearing after
fully successful eviction passes, the eviction loop is still running after
11 iterations (`none` means the fueled loop did not exit), so it executes
more than `max_drain_attempts = 10` iterations and `drain_node` need not
terminate. -/
theorem C3_counterexample :
    drain_loop "default" c3ReappearEnv "worker-1" (some "ProcessingNode") 0 11 0 0 emptyPatch
        [Effect.cordonCall "worker-1"] = none ∧
    drain_node "default" c3ReappearEnv 11 "worker-1" emptyPatch (some "ProcessingNode") 0 = none := by
  exact ⟨by decide, by decide⟩

theorem drain_loop_exits_when_passes_fail (opNs : String) (env : DrainEnv)
    (nodeName : String) (stP : Option String) (now : Int)
    (hfail : ∀ k, filter_pods_to_evict opNs (get_pods_on_node (env.podsAt k)) ≠ [] →
      0 < (evict_pass_counts (env.evictAt k)
        (filter_pods_to_evict opNs (get_pods_on_node (env.podsAt k)))).2) :
    ∀ (fuel attempt k : Nat) (patch : StatusPatch) (effs : List Effect),
      max_drain_attempts < fuel + attempt → attempt ≤ max_drain_attempts →
      (drain_loop opNs env nodeName stP now fuel attempt k patch effs).isSome = true := by
  intro fuel
  induction fuel with
  | zero =>
    intro attempt k patch effs h1 h2
    exfalso
    omega
  | succ n ih =>
    intro attempt k patch effs h1 h2
    rw [drain_loop]
    by_cases ha : attempt < max_drain_attempts
    · rw [if_pos ha]
      by_cases hp : (filter_pods_to_evict opNs (get_pods_on_node (env.podsAt k))).isEmpty = true
      · simp only [hp, if_true, Option.isSome_some]
      · simp only [hp, Bool.false_eq_true, if_false]
        have hne : filter_pods_to_evict opNs (get_pods_on_node (env.podsAt k)) ≠ [] := by
          simpa [List.isEmpty_iff] using hp
        have hc := hfail k hne
        simp only [gt_iff_lt, hc, if_true]
        exact ih (attempt + 1) (k + 1) _ _ (by omega) (by omega)
    · rw [if_neg ha]
      simp

/-- C3 amended: the eviction loop increments its `attempt` counter only on
passes where at least one eviction fails, so whenever every non-empty pass
has a failed eviction the loop exits within `max_drain_attempts + 1 = 11`
simulated iterations (at most 10 passes run before the `attempt <
max_drain_attempts` guard stops it); but a pass in which every eviction
succeeds leaves the counter unchanged, so — as `C3_counterexample` shows —
a population where pods keep reappearing after successful passes makes the
loop run beyond 10 iterations, and `drain_node` need not terminate. -/
theorem C3_loop_bounded_only_by_failing_passes (opNs : String) (env : DrainEnv)
    (nodeName : String) (stP : Option String) (now : Int)
    (hfail : ∀ k, filter_pods_to_evict opNs (get_pods_on_node (env.podsAt k)) ≠ [] →
      0 < (evict_pass_counts (env.evictAt k)
        (filter_pods_to_evict opNs (get_pods_on_node (env.podsAt k)))).2) :
    ∀ (k : Nat) (patch : StatusPatch) (effs : List Effect),
      (drain_loop opNs env nodeName stP now (max_drain_attempts + 1) 0 k patch effs).isSome
        = true := by
  intro k patch effs
  exact drain_loop_exits_when_passes_fail opNs env nodeName stP now hfail
    (max_drain_attempts + 1) 0 k patch effs (by decide) (by decide)

/-- Drain environment where the pod keeps reappearing and every eviction is
rejected by a disruption budget (HTTP 429): every pass fails. -/
def c3BlockedEnv : DrainEnv := ⟨true, fun _ => .ok [c3Pod], fun _ _ => .apiException 429⟩

theorem c3BlockedEnv_every_pass_fails :
    ∀ k, filter_pods_to_evict "default" (get_pods_on_node (c3BlockedEnv.podsAt k)) ≠ [] →
      0 < (evict_pass_counts (c3BlockedEnv.evictAt k)
        (filter_pods_to_evict "default" (get_pods_on_node (c3BlockedEnv.podsAt k)))).2 := by
  intro k _
  simp only [c3BlockedEnv]
  decide

theorem C3_loop_bounded_only_by_failing_passes_witness :
    (∀ k, filter_pods_to_evict "default" (get_pods_on_node (c3BlockedEnv.podsAt k)) ≠ [] →
      0 < (evict_pass_counts (c3BlockedEnv.evictAt k)
        (filter_pods_to_evict "default" (get_pods_on_node (c3BlockedEnv.podsAt k)))).2) ∧
    (drain_loop "default" c3BlockedEnv "worker-1" (some "ProcessingNode") 0
      (max_drain_attempts + 1) 0 0 emptyPatch []).isSome = true :=
  ⟨c3BlockedEnv_every_pass_fails,
   C3_loop_bounded_only_by_failing_passes "default" c3BlockedEnv "worker-1"
     (some "ProcessingNode") 0 c3BlockedEnv_every_pass_fails 0 emptyPatch []⟩

/-! Claim C2. -/

/-- C2: in the `ProcessingNode` phase, when the current node exists and
still matches the labels but no *other* ready, schedulable labelled node is
listed, the reconcile ends in a `TemporaryError` with delay
`RETRY_DELAY_SECONDS * 3 = 90` seconds, the patch sets neither `phase` nor
`currentNode` (so the object stays in `ProcessingNode`), and the effect
list is empty — in particular no cordon patch is ever applied to the node.
Cordoning happens only inside `drain_node`, which is reached only in the
branch where a replacement candidate exists. -/
theorem C2_no_cordon_without_replacement (opNs : String)
    (targetLabels : List (String × String)) (st : CRStatus) (env : ProcEnv)
    (fuel : Nat) (now : Int) (nd : Node)
    (hcn : ¬ st.currentNode = "")
    (hread : env.readNode = ReadNodeResult.found nd)
    (hlab : matchesLabels targetLabels nd.labels = true)
    (hcand : (get_nodes_by_selector env.replacementList).filter
        (fun n => n.name != st.currentNode && is_node_ready n && is_node_schedulable n) = []) :
    ∃ patch, process_node_refresh_processing opNs targetLabels st env fuel now =
        some (HandlerResult.tempErr 90, patch, []) ∧
      patch.phase = none ∧ patch.currentNode = none := by
  refine ⟨(tempErrorResult (update_status emptyPatch st.phase none none
      (some s!"Waiting for replacement for {st.currentNode}.") now none none) st.phase now
      "Waiting for replacement node." (RETRY_DELAY_SECONDS * 3)).2, ?_, ?_, ?_⟩
  · simp only [process_node_refresh_processing, hread, hlab, hcand, if_neg hcn]
    rfl
  · rfl
  · rfl

/-- The only labelled node of the C2 witness scenario: it is the current
node itself, so no replacement exists. -/
def c2Node : Node := ⟨"worker-1", [("role", "worker")], none, [⟨"Ready", "True"⟩]⟩

/-- Stored status of the C2 witness scenario. -/
def c2St : CRStatus := ⟨some "ProcessingNode", "worker-1", []⟩

/-- Environment of the C2 witness scenario. -/
def c2Env : ProcEnv :=
  ⟨ReadNodeResult.found c2Node, ApiResult.ok [c2Node],
   ⟨true, fun _ => ApiResult.ok [], fun _ _ => EvictApiResult.created⟩, true, ApiResult.ok []⟩

theorem C2_no_cordon_without_replacement_witness :
    (¬ c2St.currentNode = "") ∧
    c2Env.readNode = ReadNodeResult.found c2Node ∧
    matchesLabels [("role", "worker")] c2Node.labels = true ∧
    ((get_nodes_by_selector c2Env.replacementList).filter
      (fun n => n.name != c2St.currentNode && is_node_ready n && is_node_schedulable n) = []) ∧
    (∃ patch, process_node_refresh_processing "default" [("role", "worker")] c2St c2Env 1 0 =
        some (HandlerResult.tempErr 90, patch, []) ∧
      patch.phase = none ∧ patch.currentNode = none) :=
  ⟨by decide, rfl, by decide, by decide,
   C2_no_cordon_without_replacement "default" [("role", "worker")] c2St c2Env 1 0 c2Node
     (by decide) rfl (by decide) (by decide)⟩

/-! Claim C5. -/

theorem drain_loop_evict_effects (opNs : String) (env : DrainEnv) (nodeName : String)
    (stP : Option String) (now : Int) :
    ∀ (fuel attempt k : Nat) (patch : StatusPatch) (effs : List Effect)
      (res : Nat × StatusPatch × List Effect),
      drain_loop opNs env nodeName stP now fuel attempt k patch effs = some res →
      ∀ p : Pod, Effect.evictCall p ∈ res.2.2 →
        Effect.evictCall p ∈ effs ∨
          (is_daemonset_owned p = false ∧ is_operator_pod opNs p = false) := by
  intro fuel
  induction fuel with
  | zero =>
    intro attempt k patch effs res h
    simp [drain_loop] at h
  | succ n ih =>
    intro attempt k patch effs res h p hp
    rw [drain_loop] at h
    by_cases ha : attempt < max_drain_attempts
    · rw [if_pos ha] at h
      by_cases he : (filter_pods_to_evict opNs (get_pods_on_node (env.podsAt k))).isEmpty = true
      · simp only [he, if_true, Option.some.injEq] at h
        subst h
        exact Or.inl hp
      · simp only [he, Bool.false_eq_true, if_false] at h
        rcases ih _ _ _ _ _ h p hp with hin | hgood
        · rcases List.mem_append.mp hin with h1 | h2
          · exact Or.inl h1
          · right
            simp only [evict_pass_effects, List.mem_map, Effect.evictCall.injEq] at h2
            obtain ⟨q, hq, rfl⟩ := h2
            exact mem_filter_pods_to_evict hq
        · exact Or.inr hgood
    · rw [if_neg ha] at h
      simp only [Option.some.injEq] at h
      subst h
      exact Or.inl hp

/-- C5: during any execution of `drain_node`, every eviction API call is
issued for a pod that passes the protection filter — never for a
DaemonSet-owned pod and never for the operator's own pod (namespace
`OPERATOR_NAMESPACE` with label `app=node-refresh-operator`) — and the
final emptiness check only considers pods passing the same filter, so
protected pods cannot make the drain fail either. -/
theorem C5_protected_pods_never_evicted (opNs : String) (env : DrainEnv) (fuel : Nat)
    (nodeName : String) (patch : StatusPatch) (stP : Option String) (now : Int)
    (res : DrainOutcome × StatusPatch × List Effect)
    (h : drain_node opNs env fuel nodeName patch stP now = some res) :
    (∀ p : Pod, Effect.evictCall p ∈ res.2.2 →
      is_daemonset_owned p = false ∧ is_operator_pod opNs p = false) ∧
    (∀ remaining, res.1 = DrainOutcome.permErr remaining →
      ∀ p ∈ remaining, is_daemonset_owned p = false ∧ is_operator_pod opNs p = false) := by
  unfold drain_node at h
  by_cases hc : env.cordonOk = false
  · rw [if_pos hc] at h
    simp only [Option.some.injEq] at h
    subst h
    constructor
    · intro p hp
      simp at hp
    · intro remaining hrem
      simp at hrem
  · rw [if_neg hc] at h
    rcases hl : drain_loop opNs env nodeName stP now fuel 0 0
        (update_status patch stP (some "ProcessingNode") (some nodeName)
          (some "Node cordoned, starting drain.") now none none)
        [Effect.cordonCall nodeName] with _ | r
    · simp only [hl] at h
      exact absurd h (by simp)
    · obtain ⟨k, patch2, effs⟩ := r
      simp only [hl] at h
      have heffs : ∀ p : Pod, Effect.evictCall p ∈ effs →
          is_daemonset_owned p = false ∧ is_operator_pod opNs p = false := by
        intro p hp
        rcases drain_loop_evict_effects opNs env nodeName stP now fuel 0 0 _ _ _ hl p hp with
          hin | hgood
        · simp at hin
        · exact hgood
      by_cases hf : (filter_pods_to_evict opNs (get_pods_on_node (env.podsAt k))).isEmpty = false
      · simp only [hf, if_true] at h
        simp only [Option.some.injEq] at h
        subst h
        constructor
        · exact heffs
        · intro remaining hrem p hp
          simp only [DrainOutcome.permErr.injEq] at hrem
          subst hrem
          exact mem_filter_pods_to_evict hp
      · simp only [hf, Bool.true_eq_false, if_false] at h
        simp only [Option.some.injEq] at h
        subst h
        constructor
        · exact heffs
        · intro remaining hrem
          simp at hrem

/-- A DaemonSet-owned pod living on the node of the C5 witness scenario. -/
def c5DaemonPod : Pod := ⟨⟨"kube-system", "ds-abc", [], [⟨"DaemonSet"⟩]⟩, "Running"⟩

/-- Drain environment of the C5 witness: the only pod on the node is
DaemonSet-owned, so after filtering nothing is evicted and the drain
succeeds with the daemon pod still present. -/
def c5Env : DrainEnv := ⟨true, fun _ => ApiResult.ok [c5DaemonPod], fun _ _ => EvictApiResult.created⟩

/-- The status patch `drain_node` produces in the C5 witness scenario. -/
def c5Patch : StatusPatch :=
  ⟨some "ProcessingNode", some "worker-1",
   some [{ type := "ProcessingNode", status := "True", lastTransitionTime := 0,
           reason := "ProcessingNode", message := "Node cordoned, starting drain." },
         { type := "ProcessingNode", status := "True", lastTransitionTime := 0,
           reason := "Processing", message := "Successfully drained node worker-1." }],
   none⟩

theorem C5_protected_pods_never_evicted_witness :
    drain_node "default" c5Env 1 "worker-1" emptyPatch (some "ProcessingNode") 0 =
      some (DrainOutcome.success, c5Patch, [Effect.cordonCall "worker-1"]) ∧
    ((∀ p : Pod, Effect.evictCall p ∈ [Effect.cordonCall "worker-1"] →
        is_daemonset_owned p = false ∧ is_operator_pod "default" p = false) ∧
      (∀ remaining, DrainOutcome.success = DrainOutcome.permErr remaining →
        ∀ p ∈ remaining, is_daemonset_owned p = false ∧ is_operator_pod "default" p = false)) :=
  ⟨by decide,
   C5_protected_pods_never_evicted "default" c5Env 1 "worker-1" emptyPatch
     (some "ProcessingNode") 0 (DrainOutcome.success, c5Patch, [Effect.cordonCall "worker-1"])
     (by decide)⟩

/-! Claim C9. -/

/-- C9: the three branches of the `FindingNodes` phase.  With no matching
node the reconcile transitions to `Idle` within that single reconcile; with
matches but no ready-and-schedulable one it stays in `FindingNodes`
(message-only patch) and raises a `TemporaryError` with delay
`2 * RETRY_DELAY_SECONDS = 60`; otherwise it transitions to
`ProcessingNode` with `currentNode` the randomly chosen element of the
selectable list — the chosen node always belongs to the selectable list,
and (last conjunct) every element of the list is chosen for some value of
the random draw, which is the shallow rendering of the uniform support of
`random.choice`. -/
theorem C9_finding_nodes_branches (targetLabels : List (String × String)) (st : CRStatus)
    (env : FindEnv) (now : Int) :
    (get_nodes_by_selector env.listResult = [] →
      process_node_refresh_finding targetLabels st env now =
        (HandlerResult.finished,
         update_status emptyPatch st.phase (some "Idle") none (some "No target nodes found.")
           now none none)) ∧
    (get_nodes_by_selector env.listResult ≠ [] →
      (get_nodes_by_selector env.listResult).filter
          (fun n => is_node_schedulable n && is_node_ready n) = [] →
      (process_node_refresh_finding targetLabels st env now).1 = HandlerResult.tempErr 60 ∧
      (process_node_refresh_finding targetLabels st env now).2.phase = none ∧
      (process_node_refresh_finding targetLabels st env now).2.currentNode = none) ∧
    (∀ h : (get_nodes_by_selector env.listResult).filter
        (fun n => is_node_schedulable n && is_node_ready n) ≠ [],
      (process_node_refresh_finding targetLabels st env now).1 = HandlerResult.finished ∧
      (process_node_refresh_finding targetLabels st env now).2.phase = some "ProcessingNode" ∧
      (process_node_refresh_finding targetLabels st env now).2.currentNode =
        some (random_choice ((get_nodes_by_selector env.listResult).filter
          (fun n => is_node_schedulable n && is_node_ready n)) env.choice h).name ∧
      random_choice ((get_nodes_by_selector env.listResult).filter
          (fun n => is_node_schedulable n && is_node_ready n)) env.choice h ∈
        (get_nodes_by_selector env.listResult).filter
          (fun n => is_node_schedulable n && is_node_ready n)) ∧
    (∀ (l : List Node) (i : Nat) (hi : i < l.length) (hne : l ≠ []),
      random_choice l i hne = l.get ⟨i, hi⟩) := by
  refine ⟨?_, ?_, ?_, ?_⟩
  · intro h0
    simp only [process_node_refresh_finding, dif_pos h0]
  · intro h0 hsched
    have hgoal : process_node_refresh_finding targetLabels st env now =
        tempErrorResult (update_status emptyPatch st.phase none none
          (some "Waiting for a schedulable/ready target node.") now none none) st.phase now
          "No suitable node to refresh yet." (RETRY_DELAY_SECONDS * 2) := by
      simp only [process_node_refresh_finding, dif_neg h0, dif_pos hsched]
    rw [hgoal]
    exact ⟨rfl, rfl, rfl⟩
  · intro h
    have h0 : get_nodes_by_selector env.listResult ≠ [] := by
      intro hempty
      apply h
      rw [hempty]
      rfl
    have hgoal : process_node_refresh_finding targetLabels st env now =
        (HandlerResult.finished,
         update_status emptyPatch st.phase (some "ProcessingNode")
           (some (random_choice ((get_nodes_by_selector env.listResult).filter
             (fun n => is_node_schedulable n && is_node_ready n)) env.choice h).name)
           (some s!"Selected node {(random_choice ((get_nodes_by_selector env.listResult).filter
             (fun n => is_node_schedulable n && is_node_ready n)) env.choice h).name} for refresh.")
           now none none) := by
      simp only [process_node_refresh_finding, dif_neg h0, dif_neg h]
    rw [hgoal]
    refine ⟨rfl, rfl, rfl, ?_⟩
    exact List.get_mem _ _ _
  · intro l i hi hne
    simp only [random_choice]
    congr 1
    exact Fin.ext (Nat.mod_eq_of_lt hi)

/-- A labelled node that is not Ready, for the C9 witness. -/
def c9NodeUnready : Node := ⟨"worker-1", [("role", "worker")], none, []⟩

/-- A labelled, ready, schedulable node, for the C9 witness. -/
def c9Node : Node := ⟨"worker-2", [("role", "worker")], none, [⟨"Ready", "True"⟩]⟩

/-- Stored status of the C9 witness scenario. -/
def c9St : CRStatus := ⟨some "FindingNodes", "", []⟩

/-- Environment of the C9 witness scenario. -/
def c9Env : FindEnv := ⟨ApiResult.ok [c9NodeUnready, c9Node], 5⟩

theorem c9SchedulableNonempty :
    (get_nodes_by_selector c9Env.listResult).filter
      (fun n => is_node_schedulable n && is_node_ready n) ≠ [] := by
  decide

theorem C9_finding_nodes_branches_witness :
    (process_node_refresh_finding [("role", "worker")] c9St c9Env 0).1 = HandlerResult.finished ∧
    (process_node_refresh_finding [("role", "worker")] c9St c9Env 0).2.phase =
      some "ProcessingNode" ∧
    (process_node_refresh_finding [("role", "worker")] c9St c9Env 0).2.currentNode =
      some (random_choice ((get_nodes_by_selector c9Env.listResult).filter
        (fun n => is_node_schedulable n && is_node_ready n)) c9Env.choice
        c9SchedulableNonempty).name ∧
    random_choice ((get_nodes_by_selector c9Env.listResult).filter
        (fun n => is_node_schedulable n && is_node_ready n)) c9Env.choice
        c9SchedulableNonempty ∈
      (get_nodes_by_selector c9Env.listResult).filter
        (fun n => is_node_schedulable n && is_node_ready n) :=
  (C9_finding_nodes_branches [("role", "worker")] c9St c9Env 0).2.2.1 c9SchedulableNonempty

/-! Claim C8. -/

theorem update_status_conditions_message (patch : StatusPatch) (stP ph cn : Option String)
    (m : String) (now : Int) (ts : Option Int) :
    (update_status patch stP ph cn (some m) now ts none).conditions =
      some (lastN 9 (patch.conditions.getD []) ++
        [{ type := ph.getD (stP.getD "Unknown"), status := "True", lastTransitionTime := now,
           reason := ph.getD "Processing", message := m }]) := by
  cases ph <;> cases cn <;> cases ts <;> rfl

theorem update_status_conditions_no_message (patch : StatusPatch) (stP ph cn : Option String)
    (now : Int) (ts : Option Int) :
    (update_status patch stP ph cn none now ts none).conditions = patch.conditions := by
  cases ph <;> cases cn <;> cases ts <;> rfl

theorem update_status_cond_type_preserved (patch : StatusPatch) (stP ph cn : Option String)
    (m : Option String) (now : Int) (ts : Option Int) (T : String)
    (hall : ∀ c ∈ patch.conditions.getD [], c.type = T)
    (hph : ph.getD (stP.getD "Unknown") = T) :
    ∀ c ∈ (update_status patch stP ph cn m now ts none).conditions.getD [], c.type = T := by
  intro c hc
  cases m with
  | none =>
    rw [update_status_conditions_no_message] at hc
    exact hall c hc
  | some msg =>
    rw [update_status_conditions_message, Option.getD_some] at hc
    rcases List.mem_append.mp hc with h1 | h2
    · exact hall c (mem_of_mem_lastN h1)
    · simp only [List.mem_singleton] at h2
      subst h2
      exact hph

theorem drain_loop_cond_type_preserved (opNs : String) (env : DrainEnv) (nodeName : String)
    (stP : Option String) (now : Int) (T : String) (hstp : stP.getD "Unknown" = T) :
    ∀ (fuel attempt k : Nat) (patch : StatusPatch) (effs : List Effect)
      (res : Nat × StatusPatch × List Effect),
      drain_loop opNs env nodeName stP now fuel attempt k patch effs = some res →
      (∀ c ∈ patch.conditions.getD [], c.type = T) →
      ∀ c ∈ res.2.1.conditions.getD [], c.type = T := by
  intro fuel
  induction fuel with
  | zero =>
    intro attempt k patch effs res h
    simp [drain_loop] at h
  | succ n ih =>
    intro attempt k patch effs res h hall
    rw [drain_loop] at h
    by_cases ha : attempt < max_drain_attempts
    · rw [if_pos ha] at h
      by_cases he : (filter_pods_to_evict opNs (get_pods_on_node (env.podsAt k))).isEmpty = true
      · simp only [he, if_true, Option.some.injEq] at h
        subst h
        exact hall
      · simp only [he, Bool.false_eq_true, if_false] at h
        refine ih _ _ _ _ _ h ?_
        exact update_status_cond_type_preserved patch stP none none _ now none T hall hstp
    · rw [if_neg ha] at h
      simp only [Option.some.injEq] at h
      subst h
      exact hall

theorem drain_node_success_cond_types (opNs : String) (env : DrainEnv) (fuel : Nat)
    (nodeName : String) (stP : Option String) (now : Int) (p1 : StatusPatch) (effs : List Effect)
    (hstp : stP = some "ProcessingNode")
    (h : drain_node opNs env fuel nodeName emptyPatch stP now =
      some (DrainOutcome.success, p1, effs)) :
    ∀ c ∈ p1.conditions.getD [], c.type = "ProcessingNode" := by
  subst hstp
  unfold drain_node at h
  by_cases hc : env.cordonOk = false
  · rw [if_pos hc] at h
    simp at h
  · rw [if_neg hc] at h
    rcases hl : drain_loop opNs env nodeName (some "ProcessingNode") now fuel 0 0
        (update_status emptyPatch (some "ProcessingNode") (some "ProcessingNode") (some nodeName)
          (some "Node cordoned, starting drain.") now none none)
        [Effect.cordonCall nodeName] with _ | r
    · simp only [hl] at h
      exact absurd h (by simp)
    · obtain ⟨k, patch2, effs2⟩ := r
      simp only [hl] at h
      have hinit : ∀ c ∈ (update_status emptyPatch (some "ProcessingNode")
          (some "ProcessingNode") (some nodeName) (some "Node cordoned, starting drain.")
          now none none).conditions.getD [], c.type = "ProcessingNode" := by
        refine update_status_cond_type_preserved _ _ _ _ _ _ _ _ ?_ rfl
        intro c hc2
        simp [emptyPatch] at hc2
      have hp2 : ∀ c ∈ patch2.conditions.getD [], c.type = "ProcessingNode" :=
        drain_loop_cond_type_preserved opNs env nodeName (some "ProcessingNode") now
          "ProcessingNode" rfl fuel 0 0 _ _ _ hl hinit
      by_cases hf : (filter_pods_to_evict opNs (get_pods_on_node (env.podsAt k))).isEmpty = false
      · simp only [hf, if_true] at h
        simp at h
      · simp only [hf, Bool.true_eq_false, if_false, Option.some.injEq, Prod.mk.injEq] at h
        obtain ⟨-, h2, -⟩ := h
        rw [← h2]
        exact update_status_cond_type_preserved _ _ _ _ _ _ _ _ hp2 rfl

/-- C8: when the drain succeeds and the uncordon patch fails, the reconcile
still finishes normally (no error is raised): the patch records a `Warning`
condition with reason `UncordonFailed`, sets `lastRefreshTimestamp := now`,
clears `currentNode`, and advances the phase to `WaitingCooldown` when at
least one other selectable labelled node remains, to `Succeeded`
otherwise. -/
theorem C8_uncordon_failure_not_fatal (opNs : String) (targetLabels : List (String × String))
    (st : CRStatus) (env : ProcEnv) (fuel : Nat) (now : Int) (nd : Node)
    (p1 : StatusPatch) (effs : List Effect)
    (hphase : st.phase = some "ProcessingNode")
    (hcn : ¬ st.currentNode = "")
    (hread : env.readNode = ReadNodeResult.found nd)
    (hlab : matchesLabels targetLabels nd.labels = true)
    (hcand : ((get_nodes_by_selector env.replacementList).filter
        (fun n => n.name != st.currentNode && is_node_ready n && is_node_schedulable n)).isEmpty
        = false)
    (hdrain : drain_node opNs env.drain fuel st.currentNode emptyPatch st.phase now =
      some (DrainOutcome.success, p1, effs))
    (hunc : env.uncordonOk = false) :
    ∃ patch effs2,
      process_node_refresh_processing opNs targetLabels st env fuel now =
        some (HandlerResult.finished, patch, effs2) ∧
      patch.lastRefreshTimestamp = some now ∧
      patch.currentNode = some "" ∧
      (∃ c ∈ patch.conditions.getD [], c.type = "Warning" ∧ c.reason = "UncordonFailed") ∧
      ((get_nodes_by_selector env.finalList).filter
          (fun n => is_node_schedulable n && is_node_ready n && n.name != st.currentNode) ≠ [] →
        patch.phase = some "WaitingCooldown") ∧
      ((get_nodes_by_selector env.finalList).filter
          (fun n => is_node_schedulable n && is_node_ready n && n.name != st.currentNode) = [] →
        patch.phase = some "Succeeded") := by
  have hP : ∀ c ∈ p1.conditions.getD [], c.type = "ProcessingNode" :=
    drain_node_success_cond_types opNs env.drain fuel st.currentNode st.phase now p1 effs
      hphase hdrain
  have hany : ((p1.conditions.getD []).any
      (fun x => x.type == (uncordonWarning st.currentNode now).type)) = false := by
    rw [List.any_eq_false]
    intro c hc
    have hct := hP c hc
    simp [uncordonWarning, hct]
  have hp2conds : (update_status p1 st.phase none none none now none
      (some (uncordonWarning st.currentNode now))).conditions =
      some ((p1.conditions.getD []) ++ [uncordonWarning st.currentNode now]) := by
    simp only [update_status, hany, Bool.false_eq_true, if_false]
  have hwarn : ∀ (ph : String) (m : String),
      ∃ c ∈ (update_status (update_status p1 st.phase none none none now none
          (some (uncordonWarning st.currentNode now))) st.phase (some ph) (some "")
          (some m) now (some now) none).conditions.getD [],
        c.type = "Warning" ∧ c.reason = "UncordonFailed" := by
    intro ph m
    refine ⟨uncordonWarning st.currentNode now, ?_, rfl, rfl⟩
    rw [update_status_conditions_message, Option.getD_some]
    apply List.mem_append_left
    rw [hp2conds, Option.getD_some]
    exact mem_lastN_append_singleton _ _
  by_cases hrem : (get_nodes_by_selector env.finalList).filter
      (fun n => is_node_schedulable n && is_node_ready n && n.name != st.currentNode) = []
  · refine ⟨update_status (update_status p1 st.phase none none none now none
        (some (uncordonWarning st.currentNode now))) st.phase (some "Succeeded") (some "")
        (some s!"Refresh cycle completed after {st.currentNode}.") now (some now) none,
      effs ++ [Effect.uncordonCall st.currentNode], ?_, rfl, rfl, ?_, ?_, ?_⟩
    · simp only [process_node_refresh_processing, hread, hlab, hcand, hdrain, hunc,
        if_neg hcn, Bool.false_eq_true, if_false, hrem, List.length_nil]
      rfl
    · exact hwarn "Succeeded" _
    · intro hne
      exact absurd hrem hne
    · intro _
      rfl
  · have hpos : ((get_nodes_by_selector env.finalList).filter
        (fun n => is_node_schedulable n && is_node_ready n && n.name != st.currentNode)).length
        ≥ 1 := by
      have := List.length_pos.mpr hrem
      omega
    refine ⟨update_status (update_status p1 st.phase none none none now none
        (some (uncordonWarning st.currentNode now))) st.phase (some "WaitingCooldown") (some "")
        (some s!"Node {st.currentNode} refreshed. Cooldown.") now (some now) none,
      effs ++ [Effect.uncordonCall st.currentNode], ?_, rfl, rfl, ?_, ?_, ?_⟩
    · simp only [process_node_refresh_processing, hread, hlab, hcand, hdrain, hunc,
        if_neg hcn, Bool.false_eq_true, if_false, if_pos hpos]
      rfl
    · exact hwarn "WaitingCooldown" _
    · intro _
      rfl
    · intro heq
      exact absurd heq hrem

/-- The current node of the C8 witness scenario. -/
def c8Node : Node := ⟨"worker-1", [("role", "worker")], none, [⟨"Ready", "True"⟩]⟩

/-- The replacement node of the C8 witness scenario. -/
def c8Node2 : Node := ⟨"worker-2", [("role", "worker")], none, [⟨"Ready", "True"⟩]⟩

/-- Drain environment of the C8 witness: the node is already empty, so the
drain succeeds immediately. -/
def c8DrainEnv : DrainEnv := ⟨true, fun _ => ApiResult.ok [], fun _ _ => EvictApiResult.created⟩

/-- Stored status of the C8 witness scenario. -/
def c8St : CRStatus := ⟨some "ProcessingNode", "worker-1", []⟩

/-- Environment of the C8 witness scenario: the uncordon patch fails. -/
def c8Env : ProcEnv :=
  ⟨ReadNodeResult.found c8Node, ApiResult.ok [c8Node, c8Node2], c8DrainEnv, false,
   ApiResult.ok [c8Node2]⟩

/-- The patch produced by the successful drain of the C8 witness. -/
def c8P1 : StatusPatch :=
  ⟨some "ProcessingNode", some "worker-1",
   some [{ type := "ProcessingNode", status := "True", lastTransitionTime := 0,
           reason := "ProcessingNode", message := "Node cordoned, starting drain." },
         { type := "ProcessingNode", status := "True", lastTransitionTime := 0,
           reason := "Processing", message := "Successfully drained node worker-1." }],
   none⟩

theorem C8_uncordon_failure_not_fatal_witness :
    (c8St.phase = some "ProcessingNode") ∧
    (¬ c8St.currentNode = "") ∧
    (drain_node "default" c8Env.drain 1 c8St.currentNode emptyPatch c8St.phase 0 =
      some (DrainOutcome.success, c8P1, [Effect.cordonCall "worker-1"])) ∧
    (c8Env.uncordonOk = false) ∧
    (∃ patch effs2,
      process_node_refresh_processing "default" [("role", "worker")] c8St c8Env 1 0 =
        some (HandlerResult.finished, patch, effs2) ∧
      patch.lastRefreshTimestamp = some 0 ∧
      patch.currentNode = some "" ∧
      (∃ c ∈ patch.conditions.getD [], c.type = "Warning" ∧ c.reason = "UncordonFailed") ∧
      ((get_nodes_by_selector c8Env.finalList).filter
          (fun n => is_node_schedulable n && is_node_ready n && n.name != c8St.currentNode) ≠ [] →
        patch.phase = some "WaitingCooldown") ∧
      ((get_nodes_by_selector c8Env.finalList).filter
          (fun n => is_node_schedulable n && is_node_ready n && n.name != c8St.currentNode) = [] →
        patch.phase = some "Succeeded")) :=
  ⟨rfl, by decide, by decide, rfl,
   C8_uncordon_failure_not_fatal "default" [("role", "worker")] c8St c8Env 1 0 c8Node c8P1
     [Effect.cordonCall "worker-1"] rfl (by decide) rfl (by decide) (by decide) (by decide) rfl⟩

/-! Claim C1. -/

/-- Current node of the C1 counterexample scenario. -/
def c1Node : Node := ⟨"worker-1", [("role", "worker")], none, [⟨"Ready", "True"⟩]⟩

/-- Replacement node of the C1 counterexample scenario. -/
def c1Node2 : Node := ⟨"worker-2", [("role", "worker")], none, [⟨"Ready", "True"⟩]⟩

/-- A pod whose eviction is always blocked by a disruption budget, so the
drain exhausts its attempts and fails. -/
def c1BlockedPod : Pod := ⟨⟨"apps", "db-0", [], []⟩, "Running"⟩

/-- Drain environment of the C1 counterexample: the blocked pod never goes
away and every eviction returns 429. -/
def c1DrainEnv : DrainEnv :=
  ⟨true, fun _ => ApiResult.ok [c1BlockedPod], fun _ _ => EvictApiResult.apiException 429⟩

/-- Stored status of the C1 counterexample scenario. -/
def c1St : CRStatus := ⟨some "ProcessingNode", "worker-1", []⟩

/-- Environment of the C1 counterexample scenario. -/
def c1Env : ProcEnv :=
  ⟨ReadNodeResult.found c1Node, ApiResult.ok [c1Node, c1Node2], c1DrainEnv, true,
   ApiResult.ok [c1Node2]⟩

/-- C1 is falsified: the status `(Failed, "worker-1")` is reachable —
timer trigger, node selection, then drain failure — and it violates
`currentNode ≠ "" ↔ phase = ProcessingNode`.  The last conjunct grounds the
violating transition in the handler model: a concrete `ProcessingNode`
reconcile whose drain fails ends with `phase = Failed` while the patch
leaves `currentNode` set to `"worker-1"` (the failure paths of lines 260
and 476-478 never pass `current_node`). -/
theorem C1_counterexample :
    Reachable ⟨"Failed", "worker-1"⟩ ∧
    ¬((("worker-1" : String) ≠ "") ↔ (("Failed" : String) = "ProcessingNode")) ∧
    (process_node_refresh_processing "default" [("role", "worker")] c1St c1Env 12 0).map
        (fun r => (r.1, r.2.1.phase, r.2.1.currentNode)) =
      some (HandlerResult.finished, some "Failed", some "worker-1") := by
  refine ⟨?_, by decide, by decide⟩
  have h1 : Reachable ⟨"FindingNodes", ""⟩ :=
    Reachable.step _ _ Reachable.init (Step.timerTrigger _ (Or.inl rfl))
  have h2 : Reachable ⟨"ProcessingNode", "worker-1"⟩ :=
    Reachable.step _ _ h1 (Step.findSelect _ "worker-1" rfl (by decide))
  exact Reachable.step _ _ h2 (Step.procDrainFail _ rfl)

/-- C1 amended: over every reachable status, `currentNode` is non-empty in
`ProcessingNode`, and the transitions into `Idle`, `FindingNodes`,
`WaitingCooldown` and `Succeeded` leave it empty; but a transition into
`Failed` from `ProcessingNode` (drain failure or unexpected exception)
preserves the non-empty `currentNode`, so a non-empty `currentNode` only
implies `phase ∈ {ProcessingNode, Failed}`. -/
theorem C1_currentNode_phase_invariant (s : SStatus) (h : Reachable s) :
    (s.phase = "ProcessingNode" → s.currentNode ≠ "") ∧
    (s.currentNode ≠ "" → s.phase = "ProcessingNode" ∨ s.phase = "Failed") := by
  induction h with
  | init =>
    exact ⟨fun hx => absurd hx (show ¬("Idle" : String) = "ProcessingNode" by decide),
      fun hx => absurd rfl hx⟩
  | step s t hs hstep ih =>
    cases hstep with
    | timerTrigger h =>
      exact ⟨fun hx => absurd hx (show ¬("FindingNodes" : String) = "ProcessingNode" by decide),
        fun hx => absurd rfl hx⟩
    | timerCooldownIdle h =>
      refine ⟨fun hx => absurd hx (show ¬("Idle" : String) = "ProcessingNode" by decide),
        fun hx => ?_⟩
      rcases ih.2 hx with h1 | h1 <;> rw [h] at h1 <;> exact absurd h1 (by decide)
    | findNoNodes h =>
      refine ⟨fun hx => absurd hx (show ¬("Idle" : String) = "ProcessingNode" by decide),
        fun hx => ?_⟩
      rcases ih.2 hx with h1 | h1 <;> rw [h] at h1 <;> exact absurd h1 (by decide)
    | findNoneSelectable h =>
      exact ih
    | findSelect n h hn =>
      exact ⟨fun _ => hn, fun _ => Or.inl rfl⟩
    | procMissingCurrent h h2 =>
      exact ⟨fun hx => absurd hx (show ¬("FindingNodes" : String) = "ProcessingNode" by decide),
        fun hx => absurd h2 hx⟩
    | procNodeGoneOrLabels h =>
      exact ⟨fun hx => absurd hx (show ¬("FindingNodes" : String) = "ProcessingNode" by decide),
        fun hx => absurd rfl hx⟩
    | procTransient h =>
      exact ih
    | procDrainFail h =>
      exact ⟨fun hx => absurd hx (show ¬("Failed" : String) = "ProcessingNode" by decide),
        fun _ => Or.inr rfl⟩
    | procCooldown h =>
      exact ⟨fun hx => absurd hx (show ¬("WaitingCooldown" : String) = "ProcessingNode" by decide),
        fun hx => absurd rfl hx⟩
    | procSucceeded h =>
      exact ⟨fun hx => absurd hx (show ¬("Succeeded" : String) = "ProcessingNode" by decide),
        fun hx => absurd rfl hx⟩
    | reconcileException h =>
      exact ⟨fun hx => absurd hx (show ¬("Failed" : String) = "ProcessingNode" by decide),
        fun _ => Or.inr rfl⟩

theorem C1_currentNode_phase_invariant_witness :
    Reachable ⟨"Idle", ""⟩ ∧
    ((("Idle" : String) = "ProcessingNode" → ("" : String) ≠ "") ∧
     (("" : String) ≠ "" → ("Idle" : String) = "ProcessingNode" ∨ ("Idle" : String) = "Failed")) :=
  ⟨Reachable.init, C1_currentNode_phase_invariant ⟨"Idle", ""⟩ Reachable.init⟩
